import Mathlib

/-!
Shallow embedding of the poz Discord bot (src/main.rs).

The bot is a command dispatcher: `handle_event` receives one gateway event
and, when the event is a created message whose content is one of the four
literals, performs one library call chain.  All external calls (the chat
HTTP client, the songbird voice session, the libvoicetext synthesis call,
the builder validations inside twilight) are modelled by an `Env` record
fixing the outcome each call would have, and the outbound requests the
handler issues are collected in an action list.  `?`-propagated failures
and `unwrap`-panics are distinguished in `HandlerOutcome`.
-/

namespace Poz

/-- Audio container format requested from the synthesis library
(libvoicetext_api::AudioFormat); the code only ever uses Ogg. -/
inductive AudioFormat where
  | Ogg
  deriving DecidableEq

/-- Request options of the synthesis call (libvoicetext_api::ApiOptions).
The code sets `text` and `format`; every other field is filled from
`Default::default()` and never observed, so it is omitted here. -/
structure ApiOptions where
  text : String
  format : Option AudioFormat
  deriving DecidableEq

/-- twilight_model::http::attachment::Attachment as produced by
`Attachment::from_bytes(filename, bytes, id)`. -/
structure Attachment where
  filename : String
  file : List Nat
  id : Nat
  deriving DecidableEq

/-- The embed fields the dispatcher sets through EmbedBuilder:
`color`, `title`, `description`; nothing else is ever set. -/
structure Embed where
  color : Option Nat
  title : Option String
  description : Option String
  deriving DecidableEq

/-- One outbound request issued by the handler.  `reply` is a
create_message HTTP request (content, attachments and embeds as set on the
builder); `joinAttempt` is `songbird.join`; `leaveVoice` is `songbird.leave`
(never invoked anywhere in this snapshot); `synthCall` is the
libvoicetext_api::get_audio_data HTTPS call with its timeout in
milliseconds. -/
inductive OutAction where
  | synthCall (apiKey : String) (options : ApiOptions) (timeoutMs : Nat)
  | joinAttempt (guildId : Nat) (channelId : Nat)
  | leaveVoice (guildId : Nat)
  | reply (channelId : Nat) (content : Option String)
      (attachments : List Attachment) (embeds : List Embed)
  deriving DecidableEq

/-- The fields of a MessageCreate payload the dispatcher reads:
`content`, `channel_id`, `guild_id`. -/
structure MessageCreatePayload where
  content : String
  channelId : Nat
  guildId : Option Nat
  deriving DecidableEq

/-- Gateway events as the dispatcher distinguishes them: Ready,
MessageCreate, and everything else (matched by the final `_` arm). -/
inductive Event where
  | ready (userName : String)
  | messageCreate (msg : MessageCreatePayload)
  | other
  deriving DecidableEq

/-- How one invocation of `handle_event` terminates: `Ok(())`, an error
propagated by the `?` operator, or a panic from `unwrap()`. -/
inductive HandlerOutcome where
  | ok
  | error (message : String)
  | panicked (message : String)
  deriving DecidableEq

/-- True exactly on `error`. -/
def HandlerOutcome.isError : HandlerOutcome → Bool
  | .error _ => true
  | _ => false

/-- True exactly on `panicked`. -/
def HandlerOutcome.isPanic : HandlerOutcome → Bool
  | .panicked _ => true
  | _ => false

/-- The `trackdata` map of StateRef: guild id to track handle.  Handles are
opaque external values, represented by a Nat; no branch of this snapshot
ever constructs one. -/
abbrev TrackMap := List (Nat × Nat)

instance {ε α : Type} [DecidableEq ε] [DecidableEq α] : DecidableEq (Except ε α) := fun x y =>
  match x, y with
  | .error a, .error b =>
      if h : a = b then isTrue (h ▸ rfl) else isFalse (fun hc => by cases hc; exact h rfl)
  | .error _, .ok _ => isFalse (fun hc => by cases hc)
  | .ok _, .error _ => isFalse (fun hc => by cases hc)
  | .ok a, .ok b =>
      if h : a = b then isTrue (h ▸ rfl) else isFalse (fun hc => by cases hc; exact h rfl)

/-- Outcomes of the external calls a single `handle_event` invocation may
perform.  `voicetextApi` is the value `env::var("VOICETEXT_API")` would
return inside the `!test` arm.  `joinResult`'s error carries the Debug
rendering of the songbird JoinError.  `synth`'s error carries the optional
HTTP status exposed by `err.status()`.  The four booleans fix whether the
twilight builder validations (`content`, `attachments`, `embeds`) and the
awaited HTTP send succeed. -/
structure Env where
  voicetextApi : Option String
  joinResult : Except String Unit
  synth : Except (Option Nat) (List Nat)
  contentOk : Bool
  attachOk : Bool
  embedsOk : Bool
  sendOk : Bool
  deriving DecidableEq

/-- Result of one `handle_event` invocation: the outbound requests issued
in order, the task's return/panic status, and the `trackdata` map
afterwards. -/
structure HandlerResult where
  actions : List OutAction
  outcome : HandlerOutcome
  trackdata : TrackMap
  deriving DecidableEq

/-- http::StatusCode::canonical_reason for the standard registered codes
(the table of the http crate); `none` for unregistered codes. -/
def canonicalReason (code : Nat) : Option String :=
  match code with
  | 100 => some "Continue"
  | 101 => some "Switching Protocols"
  | 102 => some "Processing"
  | 200 => some "OK"
  | 201 => some "Created"
  | 202 => some "Accepted"
  | 203 => some "Non Authoritative Information"
  | 204 => some "No Content"
  | 205 => some "Reset Content"
  | 206 => some "Partial Content"
  | 207 => some "Multi-Status"
  | 208 => some "Already Reported"
  | 226 => some "IM Used"
  | 300 => some "Multiple Choices"
  | 301 => some "Moved Permanently"
  | 302 => some "Found"
  | 303 => some "See Other"
  | 304 => some "Not Modified"
  | 305 => some "Use Proxy"
  | 307 => some "Temporary Redirect"
  | 308 => some "Permanent Redirect"
  | 400 => some "Bad Request"
  | 401 => some "Unauthorized"
  | 402 => some "Payment Required"
  | 403 => some "Forbidden"
  | 404 => some "Not Found"
  | 405 => some "Method Not Allowed"
  | 406 => some "Not Acceptable"
  | 407 => some "Proxy Authentication Required"
  | 408 => some "Request Timeout"
  | 409 => some "Conflict"
  | 410 => some "Gone"
  | 411 => some "Length Required"
  | 412 => some "Precondition Failed"
  | 413 => some "Payload Too Large"
  | 414 => some "URI Too Long"
  | 415 => some "Unsupported Media Type"
  | 416 => some "Range Not Satisfiable"
  | 417 => some "Expectation Failed"
  | 418 => some "I\x27m a teapot"
  | 421 => some "Misdirected Request"
  | 422 => some "Unprocessable Entity"
  | 423 => some "Locked"
  | 424 => some "Failed Dependency"
  | 426 => some "Upgrade Required"
  | 428 => some "Precondition Required"
  | 429 => some "Too Many Requests"
  | 431 => some "Request Header Fields Too Large"
  | 451 => some "Unavailable For Legal Reasons"
  | 500 => some "Internal Server Error"
  | 501 => some "Not Implemented"
  | 502 => some "Bad Gateway"
  | 503 => some "Service Unavailable"
  | 504 => some "Gateway Timeout"
  | 505 => some "HTTP Version Not Supported"
  | 506 => some "Variant Also Negotiates"
  | 507 => some "Insufficient Storage"
  | 508 => some "Loop Detected"
  | 510 => some "Not Extended"
  | 511 => some "Network Authentication Required"
  | _ => none

/-- std::num::NonZeroU64::new: None exactly on zero. -/
def nonZeroU64New (n : Nat) : Option Nat :=
  if n = 0 then none else some n

/-- The hardcoded voice channel id of the `!join` arm. -/
def voiceChannelLiteral : Nat := 1001440920299905096

/-- The dispatcher (`handle_event`, src/main.rs lines 154-265), one
invocation on one event.  The initial `tokio::spawn` feeding the event to
`songbird.process` is internal voice-library bookkeeping, not an outbound
request, and issues none of the actions modelled here.  The Rust `match`
on `msg.content.as_str()` with string-literal arms is a sequence of
equality tests, written as an if-chain. -/
def handle_event (env : Env) (event : Event) (td : TrackMap) : HandlerResult :=
  match event with
  | .ready _ =>
      -- println! of the bot name: a log line, no outbound request.
      ⟨[], .ok, td⟩
  | .messageCreate msg =>
      if msg.content = "!ping" then
        -- create_message(ch).content("Pong!")?.await?
        if env.contentOk then
          ⟨[.reply msg.channelId (some "Pong!") [] []],
           if env.sendOk then .ok else .error "create_message send failed", td⟩
        else ⟨[], .error "message content validation failed", td⟩
      else if msg.content = "!join" then
        match msg.guildId with
        | none => ⟨[], .error "Can\x27t join a non-guild channel.", td⟩
        | some guildId =>
          match nonZeroU64New voiceChannelLiteral with
          | none => ⟨[], .error "Joined voice channel must have nonzero ID.", td⟩
          | some channelId =>
            let content :=
              match env.joinResult with
              | .ok _ => "Joined <#" ++ toString channelId ++ ">!"
              | .error e => "Failed to join <#" ++ toString channelId ++ ">! Why: " ++ e
            -- songbird.join first, then create_message(ch).content(&content)?.await?;
            -- the trailing cache.guild_voice_states read is a trace log only.
            if env.contentOk then
              ⟨[.joinAttempt guildId channelId,
                .reply msg.channelId (some content) [] []],
               if env.sendOk then .ok else .error "create_message send failed", td⟩
            else ⟨[.joinAttempt guildId channelId],
                  .error "message content validation failed", td⟩
      else if msg.content = "!leave" then
        -- placeholder: identical send to the "!ping" arm, no songbird.leave.
        if env.contentOk then
          ⟨[.reply msg.channelId (some "Pong!") [] []],
           if env.sendOk then .ok else .error "create_message send failed", td⟩
        else ⟨[], .error "message content validation failed", td⟩
      else if msg.content = "!test" then
        -- env::var("VOICETEXT_API").unwrap() panics when the variable is absent.
        match env.voicetextApi with
        | none => ⟨[], .panicked "VOICETEXT_API is not set", td⟩
        | some apiKey =>
          let synthAct := OutAction.synthCall apiKey
            ⟨"テスト", some AudioFormat.Ogg⟩ 1000
          match env.synth with
          | .ok audioData =>
            -- create_message(ch).content("test!")?
            --   .attachments(&[...]).unwrap().await.unwrap()
            if env.contentOk then
              if env.attachOk then
                ⟨[synthAct,
                  .reply msg.channelId (some "test!")
                    [⟨"test.ogg", audioData, 1⟩] []],
                 if env.sendOk then .ok else .panicked "create_message send failed",
                 td⟩
              else ⟨[synthAct], .panicked "attachment validation failed", td⟩
            else ⟨[synthAct], .error "message content validation failed", td⟩
          | .error status =>
            let errorEmbed : Embed :=
              match status with
              | some s =>
                  ⟨some 0xff0000, some "APIリクエストエラー",
                   some (toString s ++ ": " ++
                     ((canonicalReason s).getD "<unknown status code>"))⟩
              | none =>
                  ⟨some 0xff0000, some "APIのリクエストに失敗しました。", none⟩
            -- create_message(ch).embeds(&[error_embed])?.await?
            if env.embedsOk then
              ⟨[synthAct, .reply msg.channelId none [] [errorEmbed]],
               if env.sendOk then .ok else .error "create_message send failed", td⟩
            else ⟨[synthAct], .error "embed validation failed", td⟩
      else ⟨[], .ok, td⟩
  | .other => ⟨[], .ok, td⟩

/-- The environment-variable names main reads before entering the event
loop: only DISCORD_TOKEN (src/main.rs line 76).  VOICETEXT_API is read
nowhere in main. -/
def startupEnvReads : List String := ["DISCORD_TOKEN"]

/-- The startup env-var phase of main: `env::var("DISCORD_TOKEN")?` aborts
main when the variable is absent; nothing else is read from the
environment before the loop. -/
def main_startup (getEnv : String → Option String) : Except String String :=
  match getEnv "DISCORD_TOKEN" with
  | some token => .ok token
  | none => .error "environment variable not found"

/-- The trackdata map main starts the event loop with:
`trackdata: Default::default()`, the empty map. -/
def initialTrackdata : TrackMap := []

/-- Folding a sequence of handled events over the trackdata map, each event
paired with the outcomes of its external calls. -/
def run_events : List (Env × Event) → TrackMap → TrackMap
  | [], td => td
  | (env, ev) :: rest, td => run_events rest (handle_event env ev td).trackdata

/-- A fully successful environment, used to instantiate theorems at
concrete inputs. -/
def envW : Env :=
  ⟨some "key", .ok (), .ok [1, 2, 3], true, true, true, true⟩

/-- envW with the awaited HTTP send failing. -/
def envSendFail : Env :=
  ⟨some "key", .ok (), .ok [1, 2, 3], true, true, true, false⟩

/-- envW with the synthesis call failing with HTTP status 500. -/
def envSynthErr500 : Env :=
  ⟨some "key", .ok (), .error (some 500), true, true, true, true⟩

/-- envW with the synthesis call failing without an HTTP status. -/
def envSynthErrNone : Env :=
  ⟨some "key", .ok (), .error none, true, true, true, true⟩

/-- envW with the synthesis call failing with status 500 and the awaited
HTTP send failing too. -/
def envSynthErrSendFail : Env :=
  ⟨some "key", .ok (), .error (some 500), true, true, true, false⟩

/-- An environment-variable map where only DISCORD_TOKEN is set. -/
def getEnvTokenOnly : String → Option String :=
  fun n => if n = "DISCORD_TOKEN" then some "token" else none

/-- No branch of the dispatcher reads or writes the trackdata map: it is
returned unchanged on every event. -/
theorem handle_event_trackdata_eq (env : Env) (ev : Event) (td : TrackMap) :
    (handle_event env ev td).trackdata = td := by
  cases ev with
  | ready u => rfl
  | other => rfl
  | messageCreate msg =>
      simp only [handle_event]
      repeat' split
      all_goals rfl

/-- Folding any sequence of handled events leaves the trackdata map
unchanged. -/
theorem run_events_eq (steps : List (Env × Event)) (td : TrackMap) :
    run_events steps td = td := by
  induction steps generalizing td with
  | nil => rfl
  | cons p rest ih =>
      obtain ⟨env, ev⟩ := p
      simp [run_events, handle_event_trackdata_eq, ih]

/-- C1: a message whose content is exactly "!ping" makes the handler issue
exactly one outbound request, a reply with content "Pong!" and no
attachment and no embed; no join attempt and no synthesis call occur. -/
theorem c1_ping_reply (env : Env) (ch : Nat) (g : Option Nat) (td : TrackMap)
    (hc : env.contentOk = true) :
    (handle_event env (.messageCreate ⟨"!ping", ch, g⟩) td).actions
      = [OutAction.reply ch (some "Pong!") [] []] := by
  simp [handle_event, hc]

/-- Witness: c1_ping_reply at a concrete input. -/
theorem c1_ping_reply_witness :
    (handle_event envW (.messageCreate ⟨"!ping", 5, none⟩) []).actions
      = [OutAction.reply 5 (some "Pong!") [] []] :=
  c1_ping_reply envW 5 none [] rfl

/-- C2: a message whose content is none of the four recognized literals,
and any event that is neither Ready nor MessageCreate, produce no outbound
action and the handler returns Ok. -/
theorem c2_unrecognized_no_action (env : Env) (msg : MessageCreatePayload)
    (td : TrackMap)
    (h1 : msg.content ≠ "!ping") (h2 : msg.content ≠ "!join")
    (h3 : msg.content ≠ "!leave") (h4 : msg.content ≠ "!test") :
    handle_event env (.messageCreate msg) td = ⟨[], .ok, td⟩ ∧
    handle_event env .other td = ⟨[], .ok, td⟩ := by
  refine ⟨?_, rfl⟩
  simp [handle_event, h1, h2, h3, h4]

/-- Witness: c2_unrecognized_no_action at a concrete input. -/
theorem c2_unrecognized_no_action_witness :
    handle_event envW (.messageCreate ⟨"hello", 5, none⟩) [] = ⟨[], .ok, []⟩ ∧
    handle_event envW .other [] = ⟨[], .ok, []⟩ :=
  c2_unrecognized_no_action envW ⟨"hello", 5, none⟩ []
    (by decide) (by decide) (by decide) (by decide)

/-- C5: a "!join" message without a guild id makes the handler fail with
the "not in a server" error; no join attempt and no reply are issued. -/
theorem c5_join_outside_guild (env : Env) (ch : Nat) (td : TrackMap) :
    handle_event env (.messageCreate ⟨"!join", ch, none⟩) td
      = ⟨[], .error "Can\x27t join a non-guild channel.", td⟩ := by
  simp [handle_event]

/-- C8: a "!leave" message makes the handler issue exactly one outbound
request, the placeholder reply "Pong!" identical to the "!ping" reply, and
no voice-session leave operation. -/
theorem c8_leave_stub (env : Env) (ch : Nat) (g : Option Nat) (td : TrackMap)
    (hc : env.contentOk = true) :
    (handle_event env (.messageCreate ⟨"!leave", ch, g⟩) td).actions
      = [OutAction.reply ch (some "Pong!") [] []] ∧
    ∀ gid, OutAction.leaveVoice gid
      ∉ (handle_event env (.messageCreate ⟨"!leave", ch, g⟩) td).actions := by
  simp [handle_event, hc]

/-- Witness: c8_leave_stub at a concrete input. -/
theorem c8_leave_stub_witness :
    (handle_event envW (.messageCreate ⟨"!leave", 5, none⟩) []).actions
      = [OutAction.reply 5 (some "Pong!") [] []] ∧
    ∀ gid, OutAction.leaveVoice gid
      ∉ (handle_event envW (.messageCreate ⟨"!leave", 5, none⟩) []).actions :=
  c8_leave_stub envW 5 none [] rfl

/-- C9: the dispatcher never inserts into or removes from the trackdata
map, so after any sequence of handled events starting from main's initial
empty map the map is still empty. -/
theorem c9_trackdata_stays_empty :
    (∀ env ev td, (handle_event env ev td).trackdata = td) ∧
    ∀ steps : List (Env × Event), run_events steps initialTrackdata = [] :=
  ⟨handle_event_trackdata_eq, fun steps => run_events_eq steps initialTrackdata⟩

/-- C10: the hardcoded channel literal is nonzero, so NonZeroU64::new
returns it unchanged, the "nonzero ID" error is never the handler's
outcome, and every "!join" message carrying a guild id issues the join
attempt on that fixed channel. -/
theorem c10_join_always_attempted (env : Env) (ch : Nat) (g : Nat)
    (td : TrackMap) :
    nonZeroU64New voiceChannelLiteral = some 1001440920299905096 ∧
    (handle_event env (.messageCreate ⟨"!join", ch, some g⟩) td).actions.head?
      = some (.joinAttempt g 1001440920299905096) ∧
    (handle_event env (.messageCreate ⟨"!join", ch, some g⟩) td).outcome
      ≠ .error "Joined voice channel must have nonzero ID." := by
  refine ⟨by decide, ?_, ?_⟩ <;>
  · simp only [handle_event, nonZeroU64New, voiceChannelLiteral]
    cases hc : env.contentOk <;> cases hs : env.sendOk <;> simp [hc, hs]

/-- C3: a "!test" message whose synthesis call succeeds with bytes b makes
the handler issue the synthesis call and exactly one reply, with text
"test!" and exactly one attachment named "test.ogg" whose bytes equal b. -/
theorem c3_test_success (env : Env) (ch : Nat) (g : Option Nat)
    (td : TrackMap) (k : String) (b : List Nat)
    (hapi : env.voicetextApi = some k) (hsynth : env.synth = .ok b)
    (hc : env.contentOk = true) (ha : env.attachOk = true) :
    (handle_event env (.messageCreate ⟨"!test", ch, g⟩) td).actions
      = [OutAction.synthCall k ⟨"テスト", some AudioFormat.Ogg⟩ 1000,
         OutAction.reply ch (some "test!") [⟨"test.ogg", b, 1⟩] []] := by
  simp [handle_event, hapi, hsynth, hc, ha]

/-- Witness: c3_test_success at a concrete input. -/
theorem c3_test_success_witness :
    (handle_event envW (.messageCreate ⟨"!test", 5, none⟩) []).actions
      = [OutAction.synthCall "key" ⟨"テスト", some AudioFormat.Ogg⟩ 1000,
         OutAction.reply 5 (some "test!") [⟨"test.ogg", [1, 2, 3], 1⟩] []] :=
  c3_test_success envW 5 none [] "key" [1, 2, 3] rfl rfl rfl rfl

/-- C4: a "!test" message whose synthesis call fails with HTTP status s
makes the handler reply with one embed titled with the API-request-error
label and described by the decimal code, a colon and a space, and the
canonical reason phrase (a sentinel when none exists); for 500 that
description is "500: Internal Server Error"; a failure without a status
yields the request-failed title and no description. -/
theorem c4_test_failure_embed (env env2 : Env) (ch ch2 : Nat)
    (g g2 : Option Nat) (td td2 : TrackMap) (k k2 : String) (s : Nat)
    (hapi : env.voicetextApi = some k) (hsynth : env.synth = .error (some s))
    (hemb : env.embedsOk = true)
    (hapi2 : env2.voicetextApi = some k2) (hsynth2 : env2.synth = .error none)
    (hemb2 : env2.embedsOk = true) :
    ((handle_event env (.messageCreate ⟨"!test", ch, g⟩) td).actions
      = [OutAction.synthCall k ⟨"テスト", some AudioFormat.Ogg⟩ 1000,
         OutAction.reply ch none []
           [⟨some 0xff0000, some "APIリクエストエラー",
             some (toString s ++ ": " ++
               ((canonicalReason s).getD "<unknown status code>"))⟩]]) ∧
    canonicalReason 500 = some "Internal Server Error" ∧
    toString (500 : Nat) ++ ": " ++
        ((canonicalReason 500).getD "<unknown status code>")
      = "500: Internal Server Error" ∧
    ((handle_event env2 (.messageCreate ⟨"!test", ch2, g2⟩) td2).actions
      = [OutAction.synthCall k2 ⟨"テスト", some AudioFormat.Ogg⟩ 1000,
         OutAction.reply ch2 none []
           [⟨some 0xff0000, some "APIのリクエストに失敗しました。", none⟩]]) := by
  refine ⟨?_, rfl, rfl, ?_⟩
  · simp [handle_event, hapi, hsynth, hemb]
  · simp [handle_event, hapi2, hsynth2, hemb2]

/-- Witness: c4_test_failure_embed at concrete inputs, with status 500. -/
theorem c4_test_failure_embed_witness :
    ((handle_event envSynthErr500 (.messageCreate ⟨"!test", 5, none⟩) []).actions
      = [OutAction.synthCall "key" ⟨"テスト", some AudioFormat.Ogg⟩ 1000,
         OutAction.reply 5 none []
           [⟨some 0xff0000, some "APIリクエストエラー",
             some (toString (500 : Nat) ++ ": " ++
               ((canonicalReason 500).getD "<unknown status code>"))⟩]]) ∧
    canonicalReason 500 = some "Internal Server Error" ∧
    toString (500 : Nat) ++ ": " ++
        ((canonicalReason 500).getD "<unknown status code>")
      = "500: Internal Server Error" ∧
    ((handle_event envSynthErrNone (.messageCreate ⟨"!test", 7, none⟩) []).actions
      = [OutAction.synthCall "key" ⟨"テスト", some AudioFormat.Ogg⟩ 1000,
         OutAction.reply 7 none []
           [⟨some 0xff0000, some "APIのリクエストに失敗しました。", none⟩]]) :=
  c4_test_failure_embed envSynthErr500 envSynthErrNone 5 7 none none [] []
    "key" "key" 500 rfl rfl rfl rfl rfl rfl

/-- C6 counterexample: with DISCORD_TOKEN set and VOICETEXT_API absent,
the startup env-var phase of main succeeds, so the process does not fail
immediately on the missing synthesis credential. -/
theorem c6_counterexample :
    getEnvTokenOnly "VOICETEXT_API" = none ∧
    main_startup getEnvTokenOnly = .ok "token" := by
  exact ⟨rfl, rfl⟩

/-- C6 amended: only DISCORD_TOKEN is read at startup and its absence
fails the process immediately; VOICETEXT_API is not among the startup
reads and is only read inside the "!test" arm, where its absence panics
the handler task. -/
theorem c6_env_reads (getEnvA getEnvB : String → Option String) (env : Env)
    (ch : Nat) (g : Option Nat) (td : TrackMap) (t : String)
    (hA : getEnvA "DISCORD_TOKEN" = none)
    (hB : getEnvB "DISCORD_TOKEN" = some t)
    (hapi : env.voicetextApi = none) :
    main_startup getEnvA = .error "environment variable not found" ∧
    main_startup getEnvB = .ok t ∧
    "VOICETEXT_API" ∉ startupEnvReads ∧
    handle_event env (.messageCreate ⟨"!test", ch, g⟩) td
      = ⟨[], .panicked "VOICETEXT_API is not set", td⟩ := by
  refine ⟨?_, ?_, by decide, ?_⟩
  · simp [main_startup, hA]
  · simp [main_startup, hB]
  · simp [handle_event, hapi]

/-- Witness: c6_env_reads at concrete inputs. -/
theorem c6_env_reads_witness :
    main_startup (fun _ => none) = .error "environment variable not found" ∧
    main_startup getEnvTokenOnly = .ok "token" ∧
    "VOICETEXT_API" ∉ startupEnvReads ∧
    handle_event ⟨none, .ok (), .ok [1, 2, 3], true, true, true, true⟩
        (.messageCreate ⟨"!test", 5, none⟩) []
      = ⟨[], .panicked "VOICETEXT_API is not set", []⟩ :=
  c6_env_reads (fun _ => none) getEnvTokenOnly
    ⟨none, .ok (), .ok [1, 2, 3], true, true, true, true⟩
    5 none [] "token" rfl rfl rfl

/-- C7 counterexample: on the "!test" success path a failing send makes
the handler panic (unwrap), not return an error. -/
theorem c7_counterexample :
    (handle_event envSendFail (.messageCreate ⟨"!test", 5, none⟩) []).outcome
      = .panicked "create_message send failed" ∧
    (handle_event envSendFail
        (.messageCreate ⟨"!test", 5, none⟩) []).outcome.isError = false := by
  exact ⟨rfl, rfl⟩

/-- C7 amended: a failing outbound send is propagated as an error return
on the "!ping", "!leave" and "!join" arms and on the "!test" failure-embed
arm, but on the "!test" success arm it panics the handler task via
unwrap. -/
theorem c7_send_failure_paths (env envE envS : Env) (ch : Nat)
    (g : Option Nat) (gid : Nat) (td : TrackMap) (k k2 : String)
    (st : Option Nat) (b : List Nat)
    (hc : env.contentOk = true) (hs : env.sendOk = false)
    (heApi : envE.voicetextApi = some k) (heSyn : envE.synth = .error st)
    (heEmb : envE.embedsOk = true) (heSend : envE.sendOk = false)
    (hsApi : envS.voicetextApi = some k2) (hsSyn : envS.synth = .ok b)
    (hsCon : envS.contentOk = true) (hsAtt : envS.attachOk = true)
    (hsSend : envS.sendOk = false) :
    (handle_event env (.messageCreate ⟨"!ping", ch, g⟩) td).outcome.isError
      = true ∧
    (handle_event env (.messageCreate ⟨"!leave", ch, g⟩) td).outcome.isError
      = true ∧
    (handle_event env
        (.messageCreate ⟨"!join", ch, some gid⟩) td).outcome.isError = true ∧
    (handle_event envE (.messageCreate ⟨"!test", ch, g⟩) td).outcome.isError
      = true ∧
    (handle_event envS (.messageCreate ⟨"!test", ch, g⟩) td).outcome.isPanic
      = true := by
  refine ⟨?_, ?_, ?_, ?_, ?_⟩
  · simp [handle_event, hc, hs, HandlerOutcome.isError]
  · simp [handle_event, hc, hs, HandlerOutcome.isError]
  · simp [handle_event, nonZeroU64New, voiceChannelLiteral, hc, hs,
      HandlerOutcome.isError]
  · simp [handle_event, heApi, heSyn, heEmb, heSend, HandlerOutcome.isError]
  · simp [handle_event, hsApi, hsSyn, hsCon, hsAtt, hsSend,
      HandlerOutcome.isPanic]

/-- Witness: c7_send_failure_paths at concrete inputs. -/
theorem c7_send_failure_paths_witness :
    (handle_event envSendFail
        (.messageCreate ⟨"!ping", 5, none⟩) []).outcome.isError = true ∧
    (handle_event envSendFail
        (.messageCreate ⟨"!leave", 5, none⟩) []).outcome.isError = true ∧
    (handle_event envSendFail
        (.messageCreate ⟨"!join", 5, some 9⟩) []).outcome.isError = true ∧
    (handle_event envSynthErrSendFail
        (.messageCreate ⟨"!test", 5, none⟩) []).outcome.isError = true ∧
    (handle_event envSendFail
        (.messageCreate ⟨"!test", 5, none⟩) []).outcome.isPanic = true :=
  c7_send_failure_paths envSendFail envSynthErrSendFail envSendFail 5 none 9 []
    "key" "key" (some 500) [1, 2, 3] rfl rfl rfl rfl rfl rfl rfl rfl rfl rfl rfl

end Poz
